import Mathlib

/-!
Verification of the sims_catUtils tutorial notebooks.

The repository consists of two instructional notebooks:

* tutorial02.ipynb defines the helper radiansToArcsec, the mixin
  ExampleMixin with getters get_raInArcsec, get_raPlusOneRadian
  (cached) and get_math (compound, producing sum and difference),
  and the catalog class TutorialCatalog with its column_outputs,
  transformations and catalog_type declarations.

* the unnamed notebook (part_000) exercises ObservationMetaDataGenerator:
  converting pointing records into observation metadata objects, the
  bulk/per-row conversion paths, the legacy retrieval path, and a
  preprocessing loop that remaps object dtypes to one-character strings.

The catalog framework (InstanceCatalog, the cached/compound decorators,
getCatalog) and ObservationMetaDataGenerator itself are not shipped under
src/, so their behaviour is modelled from the specification; the notebook
code itself (getters, declarations, the dtype loop, recorded outputs) is
embedded directly from the source.

Numeric values are modelled as rationals; the numpy.degrees conversion is
an external function and is threaded through as a parameter deg.
-/

set_option autoImplicit false

/-- Generic exact-string-keyed association-list lookup: the first entry
whose key equals the requested name, if any. -/
def lookupStr {α : Type} (l : List (String × α)) (k : String) : Option α :=
  (l.find? (fun p => p.1 = k)).map (fun p => p.2)

/-! ## tutorial02.ipynb: mixin, transformations, factory -/

/-- One database row as read by TutorialCatalog: the stored columns
raJ2000 and decJ2000, manipulated in radians inside the code. -/
structure DBRow where
  raJ2000 : ℚ
  decJ2000 : ℚ
  deriving DecidableEq

/-- Name-indexed accessor for stored columns, embedding column_by_name
as used by the ExampleMixin getters. -/
def column_by_name (row : DBRow) : String → ℚ
  | "raJ2000" => row.raJ2000
  | "decJ2000" => row.decJ2000
  | _ => 0

/-- Embedded from the notebook: returns RA in radians (the docstring says
it will be converted to arcseconds by the transformations mapping). -/
def get_raInArcsec (row : DBRow) : ℚ :=
  column_by_name row "raJ2000"

/-- Embedded from the notebook: the cached getter body, returning RA plus
one radian. -/
def get_raPlusOneRadian (row : DBRow) : ℚ :=
  let rr := column_by_name row "raJ2000"
  rr + 1.0

/-- Embedded from the notebook: the compound getter body, returning the
pair of columns sum and difference from RA and Dec in one invocation. -/
def get_math (row : DBRow) : ℚ × ℚ :=
  let rr := column_by_name row "raJ2000"
  let dd := column_by_name row "decJ2000"
  (rr + dd, rr - dd)

/-- Embedded from the notebook: an example unit transformation that
converts radians into arc seconds, given the external degrees
conversion deg. -/
def radiansToArcsec (deg : ℚ → ℚ) (value : ℚ) : ℚ :=
  3600.0 * deg value

/-- Embedded from the notebook: the declared output columns of
TutorialCatalog, in order. -/
def column_outputs : List String :=
  ["raJ2000", "decJ2000", "raPlusOneRadian", "sum", "difference",
   "raInArcsec"]

/-- Embedded from the notebook: the transformations mapping of
TutorialCatalog. Note the key raInArcSec, whose case differs from the
declared output column raInArcsec. -/
def transformations (deg : ℚ → ℚ) : List (String × (ℚ → ℚ)) :=
  [("raJ2000", deg), ("decJ2000", deg),
   ("sum", deg), ("difference", deg),
   ("raInArcSec", radiansToArcsec deg)]

/-- Embedded from the notebook: the catalog_type key of TutorialCatalog. -/
def catalog_type : String := "tutorial_catalog"

/-- Untransformed value of each declared output column, resolved through
the getters of ExampleMixin and the stored columns. -/
def rawColumnValue (row : DBRow) : String → ℚ
  | "raJ2000" => column_by_name row "raJ2000"
  | "decJ2000" => column_by_name row "decJ2000"
  | "raPlusOneRadian" => get_raPlusOneRadian row
  | "sum" => (get_math row).1
  | "difference" => (get_math row).2
  | "raInArcsec" => get_raInArcsec row
  | _ => 0

/-- Modelled from the spec: the transformation stage of the external
InstanceCatalog framework applies the function stored under the exact
column name, if any, immediately before writing; otherwise the raw value
is written unchanged. -/
def applyTransform (deg : ℚ → ℚ) (name : String) (v : ℚ) : ℚ :=
  match lookupStr (transformations deg) name with
  | some f => f v
  | none => v

/-- Modelled from the spec: write_catalog emits, for each row, the
declared output columns in order, each passed through the transformation
stage. -/
def writeRow (deg : ℚ → ℚ) (row : DBRow) : List ℚ :=
  column_outputs.map (fun n => applyTransform deg n (rawColumnValue row n))

/-- A written catalog: its column set and its per-row values. -/
structure Catalog where
  columns : List String
  rows : List (List ℚ)
  deriving DecidableEq

/-- Direct construction of TutorialCatalog over the queried rows,
followed by serialization. -/
def makeTutorialCatalog (deg : ℚ → ℚ) (db : List DBRow) : Catalog :=
  { columns := column_outputs, rows := db.map (writeRow deg) }

/-- Modelled from the spec: the factory registry mapping the
catalog_type identifier to the TutorialCatalog constructor. -/
def catalogRegistry (deg : ℚ → ℚ) : List (String × (List DBRow → Catalog)) :=
  [(catalog_type, makeTutorialCatalog deg)]

/-- Modelled from the spec: CatalogDBObject.getCatalog looks the key up
in the registry and constructs the corresponding catalog. -/
def getCatalog (deg : ℚ → ℚ) (key : String) (db : List DBRow) : Option Catalog :=
  (lookupStr (catalogRegistry deg) key).map (fun c => c db)

/-- State of one row evaluation: the per-row cache of already computed
derived columns, and instrumentation counting how many times the cached
getter body and the compound getter body have been invoked. -/
structure EvalState where
  cache : List (String × ℚ)
  raPlusOneCalls : Nat
  mathCalls : Nat
  deriving DecidableEq

/-- The empty evaluation state a fresh row starts from. -/
def initState : EvalState :=
  { cache := [], raPlusOneCalls := 0, mathCalls := 0 }

/-- Modelled from the spec: column resolution with the cached and
compound decorators of the external framework. A cached column is
computed once and stored in the per-row cache; a compound getter fills
every column of its group in the single invocation that the first
request triggers; stored columns and the plain getter are read
directly. -/
def requestColumn (row : DBRow) (name : String) (s : EvalState) :
    Option ℚ × EvalState :=
  match lookupStr s.cache name with
  | some v => (some v, s)
  | none =>
    match name with
    | "raJ2000" => (some (column_by_name row "raJ2000"), s)
    | "decJ2000" => (some (column_by_name row "decJ2000"), s)
    | "raInArcsec" => (some (get_raInArcsec row), s)
    | "raPlusOneRadian" =>
      let v := get_raPlusOneRadian row
      (some v,
       { cache := ("raPlusOneRadian", v) :: s.cache,
         raPlusOneCalls := s.raPlusOneCalls + 1,
         mathCalls := s.mathCalls })
    | "sum" | "difference" =>
      let p := get_math row
      let c := ("sum", p.1) :: ("difference", p.2) :: s.cache
      (lookupStr c name,
       { cache := c,
         raPlusOneCalls := s.raPlusOneCalls,
         mathCalls := s.mathCalls + 1 })
    | _ => (none, s)

/-! ## part_000: observation metadata generation -/

/-- A value stored in a pointing record or a metadata mapping: an
integer, a floating value modelled as a rational, or a string. -/
inductive OValue where
  | i : ℤ → OValue
  | f : ℚ → OValue
  | s : String → OValue
  deriving DecidableEq

/-- An attribute of an observation metadata object: either a plain
scalar or a mapping keyed by filter band. -/
inductive AttrValue where
  | scalar : ℚ → AttrValue
  | keyed : List (String × ℚ) → AttrValue
  deriving DecidableEq

/-- One pointing record of the Summary table, with the columns the
notebook prints for OpSimRecords. -/
structure PointingRecord where
  obsHistID : ℤ
  expDate : ℤ
  fieldRA : ℚ
  fieldDec : ℚ
  moonRA : ℚ
  moonDec : ℚ
  rotSkyPos : ℚ
  filter : String
  rawSeeing : ℚ
  finSeeing : ℚ
  sunAlt : ℚ
  moonAlt : ℚ
  dist2Moon : ℚ
  moonPhase : ℚ
  expMJD : ℚ
  altitude : ℚ
  azimuth : ℚ
  visitExpTime : ℚ
  airmass : ℚ
  fiveSigmaDepth : ℚ
  filtSkyBrightness : ℚ
  deriving DecidableEq

/-- The raw column names of a pointing record, in the order the
notebook prints for OpSimRecords.dtype.names. -/
def opSimColumnNames : List String :=
  ["obsHistID", "expDate", "fieldRA", "fieldDec", "moonRA", "moonDec",
   "rotSkyPos", "filter", "rawSeeing", "finSeeing", "sunAlt", "moonAlt",
   "dist2Moon", "moonPhase", "expMJD", "altitude", "azimuth",
   "visitExpTime", "airmass", "fiveSigmaDepth", "filtSkyBrightness"]

/-- Access to a pointing record field by raw column name. -/
def recordValue (r : PointingRecord) : String → OValue
  | "obsHistID" => OValue.i r.obsHistID
  | "expDate" => OValue.i r.expDate
  | "fieldRA" => OValue.f r.fieldRA
  | "fieldDec" => OValue.f r.fieldDec
  | "moonRA" => OValue.f r.moonRA
  | "moonDec" => OValue.f r.moonDec
  | "rotSkyPos" => OValue.f r.rotSkyPos
  | "filter" => OValue.s r.filter
  | "rawSeeing" => OValue.f r.rawSeeing
  | "finSeeing" => OValue.f r.finSeeing
  | "sunAlt" => OValue.f r.sunAlt
  | "moonAlt" => OValue.f r.moonAlt
  | "dist2Moon" => OValue.f r.dist2Moon
  | "moonPhase" => OValue.f r.moonPhase
  | "expMJD" => OValue.f r.expMJD
  | "altitude" => OValue.f r.altitude
  | "azimuth" => OValue.f r.azimuth
  | "visitExpTime" => OValue.f r.visitExpTime
  | "airmass" => OValue.f r.airmass
  | "fiveSigmaDepth" => OValue.f r.fiveSigmaDepth
  | "filtSkyBrightness" => OValue.f r.filtSkyBrightness
  | _ => OValue.f 0

/-- Modelled from the spec: OpSimColumnMap builds the raw-name to
normalized-name mapping, parameterized by which seeing column populates
the normalized seeing field; five-sigma depth and sky brightness are
exposed as separate attributes, not through this map. -/
def OpSimColumnMap (seeing : String) : List (String × String) :=
  [("obsHistID", "Opsim_obshistid"), ("expDate", "SIM_SEED"),
   ("fieldRA", "pointingRA"), ("fieldDec", "pointingDec"),
   ("moonRA", "Opsim_moonra"), ("moonDec", "Opsim_moondec"),
   ("rotSkyPos", "Opsim_rotskypos"), ("filter", "Opsim_filter"),
   (seeing, "Opsim_rawseeing"), ("sunAlt", "Opsim_sunalt"),
   ("moonAlt", "Opsim_moonalt"), ("dist2Moon", "Opsim_dist2moon"),
   ("moonPhase", "Opsim_moonphase"), ("expMJD", "Opsim_expmjd"),
   ("altitude", "Opsim_altitude"), ("azimuth", "Opsim_azimuth"),
   ("visitExpTime", "exptime"), ("airmass", "airmass")]

/-- The normalized observation metadata value object: pointing
coordinates, the five-sigma depth and sky brightness attributes as the
notebook outputs record them, and the phoSim metadata mapping. -/
structure ObsMetaData where
  pointingRA : ℚ
  pointingDec : ℚ
  m5 : AttrValue
  skyBrightness : AttrValue
  phoSimMetaData : List (String × OValue)
  deriving DecidableEq

/-- Modelled from the spec: ObservationMetaDataFromPointing converts one
pointing record, given the raw column names and the column map, into an
observation metadata object. Pointing coordinates come from fieldRA and
fieldDec; m5 is keyed by the filter band from fiveSigmaDepth;
skyBrightness is the plain filtSkyBrightness value as the notebook
output records it; the phoSim metadata walks the raw columns in order
and keeps those the column map normalizes. -/
def ObservationMetaDataFromPointing (r : PointingRecord)
    (opSimColumns : List String) (columnMap : List (String × String)) :
    ObsMetaData :=
  { pointingRA := r.fieldRA
    pointingDec := r.fieldDec
    m5 := AttrValue.keyed [(r.filter, r.fiveSigmaDepth)]
    skyBrightness := AttrValue.scalar r.filtSkyBrightness
    phoSimMetaData :=
      opSimColumns.filterMap
        (fun c => (lookupStr columnMap c).map (fun n => (n, recordValue r c))) }

/-- Modelled from the spec: the bulk conversion walks the rows of the
structured array, converting each with the column names taken from the
array dtype and the default finSeeing column map. -/
def ObservationMetaDataFromPointingArray (rs : List PointingRecord) :
    List ObsMetaData :=
  rs.map (fun r =>
    ObservationMetaDataFromPointing r opSimColumnNames
      (OpSimColumnMap "finSeeing"))

/-- The sample OpSim record the notebook prints: record = OpSimRecords[0]. -/
def sampleRecord : PointingRecord :=
  { obsHistID := 11, expDate := 3157, fieldRA := 1.532509,
    fieldDec := -0.635345, moonRA := 2.451784, moonDec := 0.189578,
    rotSkyPos := 1.645979, filter := "y", rawSeeing := 0.90396,
    finSeeing := 0.986894, sunAlt := -0.228723, moonAlt := -0.205508,
    dist2Moon := 1.194487, moonPhase := 89.122626, expMJD := 49353.036546,
    altitude := 0.910651, azimuth := 1.960608, visitExpTime := 30.0,
    airmass := 1.265982, fiveSigmaDepth := 21.06111,
    filtSkyBrightness := 17.0 }

/-- The observation metadata object the notebook builds from the sample
record with the finSeeing column map. -/
def sampleObs : ObsMetaData :=
  ObservationMetaDataFromPointing sampleRecord opSimColumnNames
    (OpSimColumnMap "finSeeing")

/-- Modelled from the spec: the current retrieval path selects the
pointing records with the requested obsHistID and converts each through
ObservationMetaDataFromPointing. -/
def getObservationMetaData (db : List PointingRecord) (id : ℤ) :
    List ObsMetaData :=
  (db.filter (fun r => r.obsHistID = id)).map
    (fun r =>
      ObservationMetaDataFromPointing r opSimColumnNames
        (OpSimColumnMap "finSeeing"))

/-- Modelled from the spec: the phoSim metadata mapping as the legacy
retrieval path assembles it, entry by entry in the order the notebook
output records. -/
def legacyPhoSimMetaData (r : PointingRecord) : List (String × OValue) :=
  [("Opsim_obshistid", OValue.i r.obsHistID),
   ("SIM_SEED", OValue.i r.expDate),
   ("pointingRA", OValue.f r.fieldRA),
   ("pointingDec", OValue.f r.fieldDec),
   ("Opsim_moonra", OValue.f r.moonRA),
   ("Opsim_moondec", OValue.f r.moonDec),
   ("Opsim_rotskypos", OValue.f r.rotSkyPos),
   ("Opsim_filter", OValue.s r.filter),
   ("Opsim_rawseeing", OValue.f r.finSeeing),
   ("Opsim_sunalt", OValue.f r.sunAlt),
   ("Opsim_moonalt", OValue.f r.moonAlt),
   ("Opsim_dist2moon", OValue.f r.dist2Moon),
   ("Opsim_moonphase", OValue.f r.moonPhase),
   ("Opsim_expmjd", OValue.f r.expMJD),
   ("Opsim_altitude", OValue.f r.altitude),
   ("Opsim_azimuth", OValue.f r.azimuth),
   ("exptime", OValue.f r.visitExpTime),
   ("airmass", OValue.f r.airmass)]

/-- Modelled from the spec: the legacy retrieval operation
getObservationMetaDataOld selects the records with the requested
obsHistID and assembles each metadata object directly, building the
phoSim metadata mapping column by column. -/
def getObservationMetaDataOld (db : List PointingRecord) (id : ℤ) :
    List ObsMetaData :=
  (db.filter (fun r => r.obsHistID = id)).map
    (fun r =>
      { pointingRA := r.fieldRA
        pointingDec := r.fieldDec
        m5 := AttrValue.keyed [(r.filter, r.fiveSigmaDepth)]
        skyBrightness := AttrValue.scalar r.filtSkyBrightness
        phoSimMetaData := legacyPhoSimMetaData r })

/-- The pointing record with obsHistID one, reconstructed from the
phoSim metadata mapping the notebook outputs record for it; the
five-sigma depth and sky brightness fields do not appear in that
mapping and are set to representative values. -/
def record1 : PointingRecord :=
  { obsHistID := 1, expDate := 2771, fieldRA := 1.676483,
    fieldDec := -1.082473, moonRA := 2.450692, moonDec := 0.189851,
    rotSkyPos := 1.280457, filter := "y", rawSeeing := 0.779726,
    finSeeing := 0.779726, sunAlt := -0.209241, moonAlt := -0.229034,
    dist2Moon := 1.407326, moonPhase := 89.153486, expMJD := 49353.032079,
    altitude := 0.738191, azimuth := 2.597876, visitExpTime := 30.0,
    airmass := 1.485999, fiveSigmaDepth := 21.0,
    filtSkyBrightness := 17.0 }

/-- The OpSim database as the legacy comparison exercises it: the record
with obsHistID one. -/
def opsimDB : List PointingRecord := [record1]

/-- Embedded from the notebook cell that prints True: the equality check
the tutorial actually executes compares obs_metaDataList with
obs_metaDataList, the per-row list with itself. -/
def tutorialEqualityCheck (rs : List PointingRecord) : Bool :=
  let obs_metaDataList :=
    rs.map (fun r =>
      ObservationMetaDataFromPointing r opSimColumnNames
        (OpSimColumnMap "finSeeing"))
  obs_metaDataList = obs_metaDataList

/-- Embedded from the notebook: the dtype normalization loop; every
descriptor entry whose type code is the object code is remapped to the
one-character string code, every other entry is appended unchanged. -/
def mytypes : List (String × String) → List (String × String)
  | [] => []
  | val :: rest =>
    (if val.2 = "|O" then (val.1, "|S1") else val) :: mytypes rest

/-- Modelled from the numpy semantics the spec describes: converting a
string value to the one-character fixed-width dtype keeps only its first
character; values of any other dtype code are unchanged. -/
def astypeValue (typeCode : String) (s : String) : String :=
  if typeCode = "|S1" then String.mk (s.data.take 1) else s

/-! ### Theorems for tutorial02 -/

/-- C7: radiansToArcsec equals 3600 times the degrees conversion of its
argument, for every input and every degrees conversion. -/
theorem radiansToArcsec_eq_3600_mul_degrees :
    ∀ (deg : ℚ → ℚ) (x : ℚ), radiansToArcsec deg x = 3600.0 * deg x :=
  fun _ _ => rfl

/-- C1: every written row lists the declared columns in order; raJ2000,
decJ2000, sum and difference are passed through the degrees conversion;
raPlusOneRadian is written untransformed in radians; and, because the
transformations key raInArcSec differs in case from the output column
raInArcsec under exact-string-keyed lookup, raInArcsec is written as the
raw radian value returned by get_raInArcsec. -/
theorem writeRow_columns_and_transforms :
    ∀ (deg : ℚ → ℚ) (row : DBRow),
      writeRow deg row =
        [deg row.raJ2000, deg row.decJ2000, row.raJ2000 + 1.0,
         deg (row.raJ2000 + row.decJ2000), deg (row.raJ2000 - row.decJ2000),
         row.raJ2000]
      ∧ column_outputs =
        ["raJ2000", "decJ2000", "raPlusOneRadian", "sum", "difference",
         "raInArcsec"]
      ∧ lookupStr (transformations deg) "raInArcsec" = none
      ∧ lookupStr (transformations deg) "raInArcSec" = some (radiansToArcsec deg)
      ∧ writeRow deg row =
        column_outputs.map (fun n => applyTransform deg n (rawColumnValue row n)) := by
  intro deg row
  refine ⟨rfl, rfl, rfl, rfl, rfl⟩

/-- C5: the compound getter yields sum equal to ra plus dec and
difference equal to ra minus dec exactly, and requesting both derived
columns of the group, in either order, invokes the getter body exactly
once: the second request is served from the group cache. -/
theorem get_math_pair_and_invoked_once :
    ∀ (row : DBRow),
      get_math row = (row.raJ2000 + row.decJ2000, row.raJ2000 - row.decJ2000)
      ∧ (let r1 := requestColumn row "sum" initState
         let r2 := requestColumn row "difference" r1.2
         r1.1 = some (row.raJ2000 + row.decJ2000)
         ∧ r2.1 = some (row.raJ2000 - row.decJ2000)
         ∧ r2.2.mathCalls = 1)
      ∧ (let r1 := requestColumn row "difference" initState
         let r2 := requestColumn row "sum" r1.2
         r1.1 = some (row.raJ2000 - row.decJ2000)
         ∧ r2.1 = some (row.raJ2000 + row.decJ2000)
         ∧ r2.2.mathCalls = 1) := by
  intro row
  exact ⟨rfl, ⟨rfl, rfl, rfl⟩, ⟨rfl, rfl, rfl⟩⟩

/-- C6: the cached getter returns ra plus one radian, and on a repeated
request within the same row the value comes from the per-row cache: the
getter body, and with it the underlying accessor, is invoked exactly
once across both requests. -/
theorem get_raPlusOneRadian_cached :
    ∀ (row : DBRow),
      get_raPlusOneRadian row = row.raJ2000 + 1.0
      ∧ (let r1 := requestColumn row "raPlusOneRadian" initState
         let r2 := requestColumn row "raPlusOneRadian" r1.2
         r1.1 = some (row.raJ2000 + 1.0)
         ∧ r2.1 = some (row.raJ2000 + 1.0)
         ∧ r1.2.raPlusOneCalls = 1
         ∧ r2.2.raPlusOneCalls = 1) := by
  intro row
  exact ⟨rfl, ⟨rfl, rfl, rfl, rfl⟩⟩

/-- C8: looking the key tutorial_catalog up in the factory produces
exactly the directly constructed TutorialCatalog: same column set and
same per-row values, for every queried row set and every degrees
conversion. -/
theorem getCatalog_eq_direct_construction :
    ∀ (deg : ℚ → ℚ) (db : List DBRow),
      getCatalog deg catalog_type db = some (makeTutorialCatalog deg db)
      ∧ (makeTutorialCatalog deg db).columns = column_outputs
      ∧ (makeTutorialCatalog deg db).rows = db.map (writeRow deg) := by
  intro deg db
  exact ⟨rfl, rfl, rfl⟩

/-! ### Theorems for part_000 -/

/-- C2: the bulk conversion of a structured array equals the per-row
conversion mapped over its rows, and for the sample record the pointing
coordinates come from fieldRA and fieldDec: pointingRA is 1.532509 and
pointingDec is -0.635345, both as attributes and inside the phoSim
metadata mapping. -/
theorem bulk_conversion_eq_per_row :
    ∀ (rs : List PointingRecord),
      ObservationMetaDataFromPointingArray rs =
        rs.map (fun r =>
          ObservationMetaDataFromPointing r opSimColumnNames
            (OpSimColumnMap "finSeeing"))
      ∧ sampleObs.pointingRA = 1.532509
      ∧ sampleObs.pointingDec = -0.635345
      ∧ lookupStr sampleObs.phoSimMetaData "pointingRA" =
          some (OValue.f 1.532509)
      ∧ lookupStr sampleObs.phoSimMetaData "pointingDec" =
          some (OValue.f (-0.635345)) := by
  intro rs
  exact ⟨rfl, rfl, rfl, rfl, rfl⟩

/-- C3: the equality check the notebook executes compares the per-row
list obs_metaDataList with itself, and that comparison evaluates to
true; the code does not compare it with the independently built bulk
list obs_metaDataListDirect. -/
theorem tutorialEqualityCheck_true :
    ∀ (rs : List PointingRecord), tutorialEqualityCheck rs = true := by
  intro rs
  exact decide_eq_true rfl

/-- C4: for every database and pointing identifier the current retrieval
path and the legacy retrieval path yield metadata objects with equal
phoSim metadata content, and for obsHistID one both report pointingRA
1.676483 and airmass 1.485999. -/
theorem current_and_legacy_paths_agree :
    (∀ (db : List PointingRecord) (id : ℤ),
       (getObservationMetaData db id).map ObsMetaData.phoSimMetaData =
         (getObservationMetaDataOld db id).map ObsMetaData.phoSimMetaData)
    ∧ getObservationMetaData opsimDB 1 = getObservationMetaDataOld opsimDB 1
    ∧ (getObservationMetaData opsimDB 1).map
        (fun o => lookupStr o.phoSimMetaData "pointingRA") =
        [some (OValue.f 1.676483)]
    ∧ (getObservationMetaDataOld opsimDB 1).map
        (fun o => lookupStr o.phoSimMetaData "pointingRA") =
        [some (OValue.f 1.676483)]
    ∧ (getObservationMetaData opsimDB 1).map
        (fun o => lookupStr o.phoSimMetaData "airmass") =
        [some (OValue.f 1.485999)]
    ∧ (getObservationMetaDataOld opsimDB 1).map
        (fun o => lookupStr o.phoSimMetaData "airmass") =
        [some (OValue.f 1.485999)] := by
  refine ⟨?_, rfl, rfl, rfl, rfl, rfl⟩
  intro db id
  simp only [getObservationMetaData, getObservationMetaDataOld, List.map_map]
  apply List.map_congr_left
  intro r _
  rfl

/-- C9, counterexample: on the sample record the skyBrightness attribute
is the plain scalar 17.0, not a mapping keyed by the filter band as the
claim states. -/
theorem skyBrightness_is_scalar_not_keyed :
    sampleObs.skyBrightness = AttrValue.scalar 17.0
    ∧ sampleObs.skyBrightness ≠ AttrValue.keyed [("y", 17.0)] := by
  exact ⟨rfl, fun h => AttrValue.noConfusion h⟩

/-- C9, amended: on the sample record the derived m5 attribute is
exposed keyed by filter band, mapping y to 21.06111, while the
skyBrightness attribute is exposed as the plain value 17.0. -/
theorem m5_keyed_by_filter_band :
    sampleObs.m5 = AttrValue.keyed [("y", 21.06111)]
    ∧ sampleObs.skyBrightness = AttrValue.scalar 17.0 := by
  exact ⟨rfl, rfl⟩

/-- C10: the normalization loop remaps exactly the descriptor entries
whose type code is the object code to the one-character string code and
keeps every other entry unchanged, and the subsequent astype conversion
truncates any string longer than one character to its first character. -/
theorem mytypes_remap_and_astype_truncates
    (descr : List (String × String)) (name t : String) (s : String)
    (hmem : (name, t) ∈ descr) (hs : 1 < s.length) :
    mytypes descr =
      descr.map (fun v => if v.2 = "|O" then (v.1, "|S1") else v)
    ∧ (name, if t = "|O" then "|S1" else t) ∈ mytypes descr
    ∧ astypeValue "|S1" s = String.mk (s.data.take 1)
    ∧ (astypeValue "|S1" s).length = 1
    ∧ astypeValue "|S1" s ≠ s := by
  have hmap : ∀ d : List (String × String),
      mytypes d = d.map (fun v => if v.2 = "|O" then (v.1, "|S1") else v) := by
    intro d
    induction d with
    | nil => rfl
    | cons a l ih => simp only [mytypes, ih, List.map_cons]
  have hast : astypeValue "|S1" s = String.mk (s.data.take 1) := rfl
  have hlen : (astypeValue "|S1" s).length = 1 := by
    rw [hast]
    show (s.data.take 1).length = 1
    rw [List.length_take]
    have h2 : 1 < s.data.length := hs
    omega
  refine ⟨hmap descr, ?_, hast, hlen, ?_⟩
  · rw [hmap descr]
    refine List.mem_map.mpr ⟨(name, t), hmem, ?_⟩
    by_cases h : t = "|O" <;> simp [h]
  · intro heq
    rw [heq] at hlen
    omega

/-- Witness for C10: on a concrete descriptor the object-typed filter
column is remapped to the one-character code, and the concrete
two-character string gr is truncated by the conversion. -/
theorem mytypes_remap_and_astype_truncates_witness :
    (("filter", "|S1") ∈ mytypes [("obsHistID", "<i8"), ("filter", "|O")])
    ∧ astypeValue "|S1" "gr" ≠ "gr" := by
  have h := mytypes_remap_and_astype_truncates
    [("obsHistID", "<i8"), ("filter", "|O")] "filter" "|O" "gr"
    (by decide) (by decide)
  exact ⟨h.2.1, h.2.2.2.2⟩
